import Mathlib

/-!
Shallow embedding of `src/Image_classification_app.py` (a Streamlit app that
loads a TFLite binary classifier, preprocesses an uploaded ultrasound image
and displays a PCOS prediction).

Modelling conventions:
* PIL images are modelled by `PILImage`: a mode (single-channel grayscale `L`
  or three-channel `RGB`), pixel dimensions, and a pixel function returning
  the 8-bit channel values.  `RGB` stands in for every non-grayscale mode the
  code can receive; the one branch the code takes on them is `convert("L")`,
  modelled by the fixed-point luminance formula PIL uses.
* NumPy arrays are modelled by `NDArray`: a dtype tag, a shape (list of
  dimension sizes) and a value function on multi-indices.  Floating-point
  values are modelled as rationals; dtype promotion of true division and of
  `astype` is modelled explicitly.
* `PIL.Image.resize` is an external library routine; `preprocess_image` and
  `main` are parametrised by it.  Every PIL resampling filter preserves the
  mode and produces an image of exactly the target size with 8-bit pixels;
  `resizeNearest` below is one concrete resampling used to evaluate the
  pipeline on concrete inputs (the facts proved here about shapes, dtypes and
  control flow are the same for every resampling).
* The TFLite interpreter is an opaque external artifact; it is modelled as a
  function from the bound input tensor to `Except String ℚ` (the scalar
  probability `prediction[0][0]`, or a raised runtime error).
* Streamlit rendering is modelled by the `Outcome` type: each constructor
  names which branch of `main` rendered (or refused to render) a result.
-/

namespace PCOS

/-- Image modes relevant to the code: `L` is single-channel grayscale, `RGB`
is the three-channel mode (standing in for every non-grayscale mode). -/
inductive Mode where
  | L
  | RGB
deriving DecidableEq

/-- Model of a decoded PIL image: mode, pixel dimensions, and the pixel
function.  `pix x y` gives the channel values at column `x`, row `y`; for a
mode-`L` image only the first component is meaningful. -/
structure PILImage where
  mode : Mode
  width : Nat
  height : Nat
  pix : Nat → Nat → Nat × Nat × Nat

/-- Model of `image.convert("L")` for a non-grayscale image: the ITU-R 601-2
luminance transform, in the fixed-point form PIL computes it in
(`(19595 r + 38470 g + 7471 b + 32768) >> 16`; for `r = g = b = v` the
coefficients sum to `65536`, so the result is exactly `v`). -/
def Image_convert_L (img : PILImage) : PILImage :=
  { mode := Mode.L
    width := img.width
    height := img.height
    pix := fun x y =>
      let r := (img.pix x y).1
      let g := (img.pix x y).2.1
      let b := (img.pix x y).2.2
      let v := (19595 * r + 38470 * g + 7471 * b + 32768) / 65536
      (v, v, v) }

/-- Model of `Image.merge("RGB", (a, b, c))`: a three-channel image whose
channels are the single bands of the three argument images. -/
def Image_merge_RGB (a b c : PILImage) : PILImage :=
  { mode := Mode.RGB
    width := a.width
    height := a.height
    pix := fun x y => ((a.pix x y).1, (b.pix x y).1, (c.pix x y).1) }

/-- Nearest-neighbour resampling: one concrete instance of `PIL.Image.resize`
used to evaluate the pipeline on concrete inputs.  Like every PIL resampling
filter it preserves the mode and produces an image of exactly the target
size with 8-bit pixel values. -/
def resizeNearest (img : PILImage) (target : Nat × Nat) : PILImage :=
  { mode := img.mode
    width := target.1
    height := target.2
    pix := fun x y => img.pix (x * img.width / target.1) (y * img.height / target.2) }

/-- NumPy dtypes appearing in the code. -/
inductive DType where
  | uint8
  | float32
  | float64
deriving DecidableEq

/-- Model of a NumPy array: dtype tag, shape, and a value function on
multi-indices (row-major index lists of length `shape.length`). -/
structure NDArray where
  dtype : DType
  shape : List Nat
  val : List Nat → ℚ

/-- Model of `np.array(image)` on an 8-bit PIL image: a mode-`L` image gives
a rank-2 `uint8` array of shape `(height, width)`; an `RGB` image gives a
rank-3 `uint8` array of shape `(height, width, 3)`.  `arr[i][j]` is the pixel
at column `j`, row `i`. -/
def np_array (img : PILImage) : NDArray :=
  { dtype := DType.uint8
    shape :=
      match img.mode with
      | Mode.L => [img.height, img.width]
      | Mode.RGB => [img.height, img.width, 3]
    val := fun idx =>
      match img.mode, idx with
      | Mode.L, [i, j] => ((img.pix j i).1 : ℚ)
      | Mode.RGB, [i, j, 0] => ((img.pix j i).1 : ℚ)
      | Mode.RGB, [i, j, 1] => ((img.pix j i).2.1 : ℚ)
      | Mode.RGB, [i, j, 2] => ((img.pix j i).2.2 : ℚ)
      | _, _ => 0 }

/-- Model of `np.expand_dims(a, axis=0)`: prepend a batch dimension of size
1; index `0 :: idx` reads `a` at `idx`. -/
def np_expand_dims0 (a : NDArray) : NDArray :=
  { dtype := a.dtype
    shape := 1 :: a.shape
    val := fun idx =>
      match idx with
      | _ :: rest => a.val rest
      | [] => 0 }

/-- Model of true division of an array by a Python float scalar
(`a / 255.0`): NumPy keeps `float32` arrays at `float32` and promotes every
other dtype (here `uint8`) to `float64`. -/
def np_div_scalar (a : NDArray) (s : ℚ) : NDArray :=
  { dtype :=
      match a.dtype with
      | DType.float32 => DType.float32
      | _ => DType.float64
    shape := a.shape
    val := fun idx => a.val idx / s }

/-- Model of `a.astype(np.float32)`: retag the dtype (values are modelled as
exact rationals, so no rounding is modelled). -/
def np_astype (a : NDArray) (d : DType) : NDArray :=
  { dtype := d
    shape := a.shape
    val := a.val }

/-- Translation of `preprocess_image` (lines 80-98): if the image mode is not
"L", convert to grayscale and merge the single band three times into an RGB
image; resize to `target_size`; convert to a NumPy array; prepend the batch
dimension; divide by 255.0.  The call in `main` passes the default
`target_size = (224, 224)`. -/
def preprocess_image (resize : PILImage → Nat × Nat → PILImage)
    (image : PILImage) (target_size : Nat × Nat) : NDArray :=
  let image1 :=
    if image.mode ≠ Mode.L then
      let g := Image_convert_L image
      Image_merge_RGB g g g
    else image
  let image2 := resize image1 target_size
  let img_array := np_array image2
  let img_array1 := np_expand_dims0 img_array
  np_div_scalar img_array1 255

/-- Type of the modelled TFLite interpreter handle: a map from the bound
input tensor to either the scalar output probability `prediction[0][0]` or a
raised runtime error. -/
def Interp : Type := NDArray → Except String ℚ

/-- Translation of `predict_pcos_tflite` (lines 100-121): bind the tensor
cast to `float32`, invoke, read the scalar probability, label it
"PCOS Negative" when the probability is strictly greater than 0.5 and
"PCOS Positive" otherwise; any raised error is caught (`st.error` is shown)
and `(None, None)` is returned. -/
def predict_pcos_tflite (interpreter : Interp) (image_array : NDArray) :
    Option String × Option ℚ :=
  match interpreter (np_astype image_array DType.float32) with
  | Except.ok probability =>
      (some (if probability > 1/2 then "PCOS Negative" else "PCOS Positive"),
       some probability)
  | Except.error _ => (none, none)

/-- Translation of `load_tflite_model` (lines 70-78): the attempt to build
and allocate the interpreter either succeeds with a handle or raises; the
`except` branch shows `st.error` and returns `None`. -/
def load_tflite_model (attempt : Except String Interp) : Option Interp :=
  match attempt with
  | Except.ok interpreter => some interpreter
  | Except.error _ => none

/-- Boolean prefix test on character lists (helper for the Python `in`
substring operator). -/
def startsWith : List Char → List Char → Bool
  | [], _ => true
  | _ :: _, [] => false
  | a :: p, b :: q => a = b && startsWith p q

/-- Boolean substring search on character lists. -/
def strFind (pat : List Char) : List Char → Bool
  | [] => pat.isEmpty
  | b :: t => startsWith pat (b :: t) || strFind pat t

/-- Model of the Python substring test `sub in s` on strings. -/
def pyIn (sub s : String) : Bool :=
  strFind sub.toList s.toList

/-- Round to the nearest integer, ties to the even integer (the rounding
CPython uses when formatting a float). -/
def roundHalfEven (q : ℚ) : ℤ :=
  let n := ⌊q⌋
  if q - n < 1/2 then n
  else if q - n > 1/2 then n + 1
  else if n % 2 = 0 then n else n + 1

/-- Model of the Python format `f"{q:.2%}"` on a nonnegative value (the only
use in the code is on the confidence `abs(probability - 0.5) * 2`, which is
nonnegative): multiply by 100, round to two decimal places (ties to even)
and append a percent sign. -/
def formatPercent (q : ℚ) : String :=
  let cents := (roundHalfEven (q * 10000)).toNat
  let whole := cents / 100
  let frac := cents % 100
  toString whole ++ "." ++
    (if frac < 10 then "0" ++ toString frac else toString frac) ++ "%"

/-- Confidence value interpolated into the rendered result (line 202):
`abs(probability - 0.5) * 2`. -/
def displayedConfidence (probability : ℚ) : ℚ :=
  |probability - 1/2| * 2

/-- Model of the uploaded file `main` receives: its byte size and the result
of `Image.open` on its bytes (which either decodes to an image or raises). -/
structure UploadedFile where
  size : Nat
  decoded : Except String PILImage

/-- What one run of `main` rendered.  Each constructor names one exit of the
function body:
* `loadError`: `interpreter is None`, the error at line 163 is shown and
  `main` returns (lines 162-164);
* `placeholder`: no upload, the placeholder prompt is shown (lines 209-217);
* `oversize`: `uploaded_file.size > 10 * 1024 * 1024`, the size error at
  line 170 is shown and `main` returns (lines 168-171);
* `processingError`: an exception raised inside the `try` block (for example
  `Image.open` failing to decode) is caught at line 206 and the processing
  error is shown (lines 206-208);
* `imageShown`: the image is displayed and the check button was not pressed,
  so no prediction runs (lines 173-185);
* `noResult`: prediction ran but returned a falsy result, so the `if result:`
  guard at line 193 renders nothing (the failure message was already shown by
  `predict_pcos_tflite` at line 120);
* `displayed label color confidenceText`: the result block at lines 193-204
  is rendered with this label, heading colour and formatted confidence. -/
inductive Outcome where
  | loadError
  | placeholder
  | oversize
  | processingError
  | imageShown
  | noResult
  | displayed (label color confidenceText : String)
deriving DecidableEq

/-- Translation of the rendering step (lines 191-204): destructure the pair
returned by `predict_pcos_tflite`; when `result` is truthy (a non-empty
string) render it, colouring the heading red when the label contains
"Positive" and green otherwise, with the confidence formatted as a
percentage.  A truthy `result` with an absent probability would raise a
`TypeError` in the f-string, caught by the outer handler at line 206; that
case is unreachable (see `predict_result_consistency`). -/
def render_result (r : Option String × Option ℚ) : Outcome :=
  match r with
  | (some result, probabilityOpt) =>
      if result = "" then Outcome.noResult
      else
        match probabilityOpt with
        | some probability =>
            Outcome.displayed result
              (if pyIn "Positive" result then "red" else "green")
              (formatPercent (displayedConfidence probability))
        | none => Outcome.processingError
  | (none, _) => Outcome.noResult

/-- Translation of the `try` block of `main` for an upload that passed the
size check (lines 173-208): decode the bytes with `Image.open` (a failure is
caught at line 206), display the image, and when the check button is pressed
preprocess the image, predict and render. -/
def handle_upload (resize : PILImage → Nat × Nat → PILImage)
    (interpreter : Interp) (file : UploadedFile) (check_button : Bool) :
    Outcome :=
  match file.decoded with
  | Except.error _ => Outcome.processingError
  | Except.ok image =>
      if check_button then
        let processed_image := preprocess_image resize image (224, 224)
        render_result (predict_pcos_tflite interpreter processed_image)
      else Outcome.imageShown

/-- Translation of `main` (lines 123-217), keeping the branches that decide
what is rendered: load the model (returning early with an error when the
handle is absent), then for an upload check the 10 MB size ceiling before
any decoding or prediction, and otherwise show the placeholder.  `attempt`
models the outcome of constructing and allocating the TFLite interpreter
inside `load_tflite_model`; `resize` models `PIL.Image.resize`. -/
def main (resize : PILImage → Nat × Nat → PILImage)
    (attempt : Except String Interp) (uploaded_file : Option UploadedFile)
    (check_button : Bool) : Outcome :=
  match load_tflite_model attempt with
  | none => Outcome.loadError
  | some interpreter =>
      match uploaded_file with
      | none => Outcome.placeholder
      | some file =>
          if file.size > 10 * 1024 * 1024 then Outcome.oversize
          else handle_upload resize interpreter file check_button

/-! Concrete inputs used to evaluate the pipeline. -/

/-- A 10x10 image already in single-channel grayscale mode "L", every pixel
with gray value 7. -/
def grayImage10 : PILImage :=
  { mode := Mode.L, width := 10, height := 10, pix := fun _ _ => (7, 7, 7) }

/-- The RGB equivalent of `grayImage10`: a 10x10 three-channel image with
identical luminance 7 in all three channels. -/
def grayRGB10 : PILImage :=
  { mode := Mode.RGB, width := 10, height := 10, pix := fun _ _ => (7, 7, 7) }

/-- A 300x300 RGB image (constant colour). -/
def rgbImage300 : PILImage :=
  { mode := Mode.RGB, width := 300, height := 300, pix := fun _ _ => (120, 80, 60) }

/-- A small preprocessed-tensor stand-in used to exercise the predictor. -/
def arr0 : NDArray :=
  { dtype := DType.float64, shape := [1], val := fun _ => 0 }

/-- A 5000-byte upload that decodes to the 300x300 RGB image. -/
def file_small : UploadedFile :=
  { size := 5000, decoded := Except.ok rgbImage300 }

/-- An upload of exactly 10485761 bytes (one byte over the ceiling). -/
def file_oversize : UploadedFile :=
  { size := 10485761, decoded := Except.error "never examined" }

/-- An upload of exactly 10485760 bytes that decodes to the 300x300 RGB
image. -/
def file_atLimit : UploadedFile :=
  { size := 10485760, decoded := Except.ok rgbImage300 }

/-! Theorems about the embedded program. -/

/-- C1: the claim says `preprocess_image` returns a tensor of shape
(1,224,224,3) for every color mode including mode "L"; the code skips the
3-channel merge for a mode-"L" image, so the returned array has shape
(1,224,224) there (evaluated at a concrete grayscale input). -/
theorem preprocess_gray_mode_shape :
    (preprocess_image resizeNearest grayImage10 (224, 224)).shape = [1, 224, 224] ∧
    (preprocess_image resizeNearest grayImage10 (224, 224)).shape ≠ [1, 224, 224, 3] :=
  ⟨rfl, by decide⟩

/-- C2: for every probability the interpreter returns, `predict_pcos_tflite`
labels it "PCOS Negative" when it is strictly greater than 0.5 and
"PCOS Positive" when it is less than or equal to 0.5 (so exactly 0.5 is
labelled Positive). -/
theorem predict_decision_rule (interpreter : Interp) (arr : NDArray) (p : ℚ)
    (h : interpreter (np_astype arr DType.float32) = Except.ok p) :
    (1/2 < p → predict_pcos_tflite interpreter arr = (some "PCOS Negative", some p)) ∧
    (p ≤ 1/2 → predict_pcos_tflite interpreter arr = (some "PCOS Positive", some p)) := by
  constructor
  · intro hp
    show (match interpreter (np_astype arr DType.float32) with
      | Except.ok probability =>
          (some (if probability > 1/2 then "PCOS Negative" else "PCOS Positive"),
           some probability)
      | Except.error _ => ((none : Option String), (none : Option ℚ))) = _
    rw [h]
    show (some (if p > 1/2 then "PCOS Negative" else "PCOS Positive"), some p) = _
    rw [if_pos hp]
  · intro hp
    show (match interpreter (np_astype arr DType.float32) with
      | Except.ok probability =>
          (some (if probability > 1/2 then "PCOS Negative" else "PCOS Positive"),
           some probability)
      | Except.error _ => ((none : Option String), (none : Option ℚ))) = _
    rw [h]
    show (some (if p > 1/2 then "PCOS Negative" else "PCOS Positive"), some p) = _
    rw [if_neg (not_lt.mpr hp)]

/-- Witness for C2 at the boundary probability 0.5: the Positive branch is
taken. -/
theorem predict_decision_rule_witness :
    predict_pcos_tflite (fun _ => Except.ok (1/2)) arr0 = (some "PCOS Positive", some (1/2)) :=
  (predict_decision_rule (fun _ => Except.ok (1/2)) arr0 (1/2) rfl).2 (by norm_num)

/-- C3: the confidence interpolated into the rendered result is
`abs(probability - 0.5) * 2`; probability 0.5 maps to 0 (formatted "0.00%"),
probabilities 0 and 1 map to 1 (formatted "100.00%"), and probability 0.75
maps to 1/2 (formatted "50.00%"). -/
theorem confidence_formula :
    (∀ p : ℚ, displayedConfidence p = |p - 1/2| * 2) ∧
    displayedConfidence (1/2) = 0 ∧
    displayedConfidence 0 = 1 ∧
    displayedConfidence 1 = 1 ∧
    displayedConfidence (3/4) = 1/2 ∧
    formatPercent (displayedConfidence (1/2)) = "0.00%" ∧
    formatPercent (displayedConfidence 0) = "100.00%" ∧
    formatPercent (displayedConfidence 1) = "100.00%" ∧
    formatPercent (displayedConfidence (3/4)) = "50.00%" := by
  refine ⟨fun p => rfl, ?_, ?_, ?_, ?_, ?_, ?_, ?_, ?_⟩ <;> with_unfolding_all rfl

/-- C4: the claim says preprocessing an already-grayscale image yields the
same tensor as preprocessing its RGB equivalent with identical luminance;
the code gives the grayscale input shape (1,224,224) but the RGB input shape
(1,224,224,3), so the two tensors differ (evaluated at a concrete pair). -/
theorem preprocess_gray_vs_rgb_equiv :
    preprocess_image resizeNearest grayImage10 (224, 224) ≠
      preprocess_image resizeNearest grayRGB10 (224, 224) :=
  fun h => absurd (congrArg NDArray.shape h) (by decide)

/-- C5: the upload size ceiling is exactly 10485760 bytes.  A larger upload
is rejected as oversize whatever the file decodes to, whether the button was
pressed and whatever the interpreter would return (so no decoding,
preprocessing or inference is attempted on it); an upload of at most
10485760 bytes passes the size check and is handed to the processing block,
and with a decodable image, the button pressed and a working interpreter the
prediction is rendered. -/
theorem upload_size_ceiling (resize : PILImage → Nat × Nat → PILImage)
    (interpFn : Interp) (file : UploadedFile) (check_button : Bool)
    (img : PILImage) (p : ℚ) :
    (file.size > 10485760 →
      main resize (Except.ok interpFn) (some file) check_button = Outcome.oversize) ∧
    (file.size ≤ 10485760 →
      main resize (Except.ok interpFn) (some file) check_button =
        handle_upload resize interpFn file check_button) ∧
    (file.size ≤ 10485760 → file.decoded = Except.ok img →
      (∀ a, interpFn a = Except.ok p) →
      main resize (Except.ok interpFn) (some file) true =
        render_result
          (some (if p > 1/2 then "PCOS Negative" else "PCOS Positive"), some p)) := by
  have hmain : ∀ cb : Bool, main resize (Except.ok interpFn) (some file) cb =
      if file.size > 10 * 1024 * 1024 then Outcome.oversize
      else handle_upload resize interpFn file cb := fun cb => rfl
  refine ⟨?_, ?_, ?_⟩
  · intro h
    rw [hmain, if_pos (by omega)]
  · intro h
    rw [hmain, if_neg (by omega)]
  · intro h hdec hint
    rw [hmain, if_neg (by omega)]
    unfold handle_upload
    rw [hdec]
    show render_result
        (predict_pcos_tflite interpFn (preprocess_image resize img (224, 224))) = _
    unfold predict_pcos_tflite
    rw [hint]

/-- Witness for C5: a 10485761-byte upload is rejected as oversize; a
10485760-byte upload is processed and its prediction rendered. -/
theorem upload_size_ceiling_witness :
    main resizeNearest (Except.ok (fun _ => Except.ok (1/5))) (some file_oversize) true =
      Outcome.oversize ∧
    main resizeNearest (Except.ok (fun _ => Except.ok (1/5))) (some file_atLimit) true =
      render_result
        (some (if (1/5 : ℚ) > 1/2 then "PCOS Negative" else "PCOS Positive"), some (1/5)) :=
  ⟨(upload_size_ceiling resizeNearest (fun _ => Except.ok (1/5)) file_oversize true
      rgbImage300 (1/5)).1 (by decide),
   (upload_size_ceiling resizeNearest (fun _ => Except.ok (1/5)) file_atLimit true
      rgbImage300 (1/5)).2.2 (by decide) rfl (fun _ => rfl)⟩

/-- C6: when building the interpreter raises, `load_tflite_model` returns
None instead of propagating the exception, and `main` renders the load
failure and returns for every upload and button state, so neither
`preprocess_image` nor `predict_pcos_tflite` is reached (the outcome does
not depend on the resize function, the upload or the button). -/
theorem load_failure_short_circuits (resize : PILImage → Nat × Nat → PILImage)
    (e : String) (uploaded_file : Option UploadedFile) (check_button : Bool) :
    load_tflite_model (Except.error e) = none ∧
    main resize (Except.error e) uploaded_file check_button = Outcome.loadError :=
  ⟨rfl, rfl⟩

/-- C7 counterexample: the claim says the tensor returned by
`preprocess_image` has element type 32-bit float; at a concrete input its
dtype is float64 (NumPy true division by the Python float 255.0 promotes
uint8 to float64), which is not float32. -/
theorem preprocess_dtype_counterexample :
    (preprocess_image resizeNearest rgbImage300 (224, 224)).dtype = DType.float64 ∧
    DType.float64 ≠ DType.float32 :=
  ⟨rfl, by decide⟩

/-- C7 as amended: for every input image the tensor returned by
`preprocess_image` has element type 64-bit float, and it is cast to 32-bit
float inside `predict_pcos_tflite` before being bound to the model input. -/
theorem preprocess_dtype_float64 (resize : PILImage → Nat × Nat → PILImage)
    (image : PILImage) (target_size : Nat × Nat) :
    (preprocess_image resize image target_size).dtype = DType.float64 ∧
    (np_astype (preprocess_image resize image target_size) DType.float32).dtype =
      DType.float32 :=
  ⟨rfl, rfl⟩

/-- C8: when the interpreter raises during binding or execution,
`predict_pcos_tflite` returns `(None, None)` instead of propagating (the
failure message is shown by its handler), and `main` renders no prediction
result for that interaction: the `if result:` guard fails and the outcome is
`noResult`, not `displayed`. -/
theorem prediction_error_caught (resize : PILImage → Nat × Nat → PILImage)
    (interpFn : Interp) (file : UploadedFile) (img : PILImage) (e : String)
    (hdec : file.decoded = Except.ok img)
    (hsize : file.size ≤ 10485760)
    (herr : ∀ a, interpFn a = Except.error e) :
    predict_pcos_tflite interpFn (preprocess_image resize img (224, 224)) =
      (none, none) ∧
    main resize (Except.ok interpFn) (some file) true = Outcome.noResult := by
  have hpred : predict_pcos_tflite interpFn (preprocess_image resize img (224, 224)) =
      (none, none) := by
    unfold predict_pcos_tflite
    rw [herr]
  refine ⟨hpred, ?_⟩
  have hmain : main resize (Except.ok interpFn) (some file) true =
      if file.size > 10 * 1024 * 1024 then Outcome.oversize
      else handle_upload resize interpFn file true := rfl
  rw [hmain, if_neg (by omega)]
  unfold handle_upload
  rw [hdec]
  show render_result
      (predict_pcos_tflite interpFn (preprocess_image resize img (224, 224))) = _
  rw [hpred]
  rfl

/-- Witness for C8: a concrete always-raising interpreter gives
`(None, None)` and a `noResult` interaction. -/
theorem prediction_error_caught_witness :
    predict_pcos_tflite (fun _ => Except.error "invoke failed")
      (preprocess_image resizeNearest rgbImage300 (224, 224)) = (none, none) ∧
    main resizeNearest (Except.ok (fun _ => Except.error "invoke failed"))
      (some file_small) true = Outcome.noResult :=
  prediction_error_caught resizeNearest (fun _ => Except.error "invoke failed")
    file_small rgbImage300 "invoke failed" rfl (by decide) (fun _ => rfl)

/-- C9: end-to-end scenario: a small upload decoding to a 300x300 RGB image,
the button pressed, and a model returning probability 0.2 renders the label
"PCOS Positive" in red with confidence text "60.00%". -/
theorem scenario_rgb300 :
    main resizeNearest (Except.ok (fun _ => Except.ok (1/5))) (some file_small) true =
      Outcome.displayed "PCOS Positive" "red" "60.00%" := by
  with_unfolding_all rfl

/-- C10: the pair returned by `predict_pcos_tflite` is consistent: the label
is None exactly when the probability is None, and a present label is one of
the two strings "PCOS Negative" and "PCOS Positive". -/
theorem predict_result_consistency (interpreter : Interp) (arr : NDArray) :
    ((predict_pcos_tflite interpreter arr).1 = none ↔
      (predict_pcos_tflite interpreter arr).2 = none) ∧
    (∀ s, (predict_pcos_tflite interpreter arr).1 = some s →
      s = "PCOS Negative" ∨ s = "PCOS Positive") := by
  unfold predict_pcos_tflite
  cases h : interpreter (np_astype arr DType.float32) with
  | ok p =>
      refine ⟨by simp, ?_⟩
      intro s hs
      have hs2 : some (if p > 1/2 then "PCOS Negative" else "PCOS Positive") = some s := hs
      by_cases hp : p > 1/2
      · rw [if_pos hp] at hs2
        exact Or.inl (Option.some.inj hs2).symm
      · rw [if_neg hp] at hs2
        exact Or.inr (Option.some.inj hs2).symm
  | error e =>
      refine ⟨Iff.intro (fun _ => rfl) (fun _ => rfl), ?_⟩
      intro s hs
      exact Option.noConfusion (hs : (none : Option String) = some s)

/-- Witness for C10: a concrete successful run produces the Positive label,
which is one of the two strings, and the None-consistency holds there. -/
theorem predict_result_consistency_witness :
    ((predict_pcos_tflite (fun _ => Except.ok (1/4)) arr0).1 = none ↔
      (predict_pcos_tflite (fun _ => Except.ok (1/4)) arr0).2 = none) ∧
    ("PCOS Positive" = "PCOS Negative" ∨ "PCOS Positive" = "PCOS Positive") :=
  ⟨(predict_result_consistency (fun _ => Except.ok (1/4)) arr0).1,
   (predict_result_consistency (fun _ => Except.ok (1/4)) arr0).2 "PCOS Positive"
     (by with_unfolding_all rfl)⟩

end PCOS
